import Mathlib

/-!
Shallow embedding of the authentication core of the repository:
`GoogleSsoService` (src/google-sso.service.ts), the session-resolution
middleware (src/authenticate-user.middleware.ts) and the GraphQL auth
context (src/unnamed/part_002).

External collaborators (refresh-token store, audit log, user verification,
email gateway) are not part of src/; their operations are modelled from
the spec as pure updates on an explicit database state, and provider /
repository calls that can fail are modelled through an environment record
passed to each operation.
-/

namespace SsoAuth

/-- Error kinds, one per exception class in src/common/exceptions plus the
generic runtime failures a TypeScript `catch` can observe. -/
inductive AuthError where
  | expiredRefreshToken
  | userNotFound
  | invalidRefreshToken
  | unexpectedRefresh
  | googleAuthFailed
  | unexpectedLogout
  | providerError
  | typeError
  | serviceError
deriving DecidableEq, Repr

/-- Authentication event type (src/common/enums/authentication-event-type). -/
inductive EventType where
  | login
  | registration
deriving DecidableEq, Repr

/-- Authentication status (src/common/enums/authentication-status). -/
inductive AuthStatus where
  | success
  | failure
deriving DecidableEq, Repr

/-- Audit-log error message codes (src/common/enums/authentication-log-error-messages). -/
inductive LogErrMsg where
  | unexpectedGoogleSso
deriving DecidableEq, Repr

/-- A stored refresh-token row.  Modelled from the spec: the
RefreshTokenStore entity (token string, owning user id, last-used
timestamp, active flag) is a collaborator whose source is not in src/. -/
structure TokenRec where
  id : Nat
  userId : Nat
  token : String
  active : Bool
  lastUsedOn : Nat
deriving DecidableEq, Repr

/-- One audit record, per the AuthenticationEvent data model. -/
structure AuthEvent where
  userId : Option Nat
  eventType : EventType
  status : AuthStatus
  errorMessage : Option LogErrMsg
  refreshTokenId : Option Nat
deriving DecidableEq, Repr

/-- The persisted state the service mutates: refresh-token rows, the
append-only audit log, the set of users whose email is verified locally,
the verification emails dispatched so far, and persisted SSO rows. -/
structure DbState where
  tokens : List TokenRec
  nextTokenId : Nat
  auditLog : List AuthEvent
  verified : List Nat
  emailsSent : List Nat
  ssoRows : List Nat
deriving DecidableEq, Repr

/-- Modelled from the spec: `RefreshTokenStore.deactivateAll(userId)` —
marks every refresh-token row of the user inactive. -/
def deactivateRefreshTokens (uid : Nat) (s : DbState) : DbState :=
  { s with tokens := s.tokens.map (fun r => if r.userId = uid then { r with active := false } else r) }

/-- Modelled from the spec: `RefreshTokenStore.create(userId, token, method)`
— persists a fresh active row and returns its assigned id. -/
def createRefreshToken (uid : Nat) (tok : String) (s : DbState) : Nat × DbState :=
  (s.nextTokenId,
   { s with
      tokens := s.tokens ++ [⟨s.nextTokenId, uid, tok, true, 0⟩],
      nextTokenId := s.nextTokenId + 1 })

/-- Modelled from the spec: `RefreshTokenStore.updateLastUsed(token)` —
stamps the row holding this token string with the current time. -/
def updateLastUsedOn (tok : String) (now : Nat) (s : DbState) : DbState :=
  { s with tokens := s.tokens.map (fun r => if r.token = tok then { r with lastUsedOn := now } else r) }

/-- Modelled from the spec: `AuditLog.record(event)` — appends one
immutable record. -/
def logEvent (uid : Option Nat) (ty : EventType) (st : AuthStatus)
    (msg : Option LogErrMsg) (rtid : Option Nat) (s : DbState) : DbState :=
  { s with auditLog := ⟨uid, ty, st, msg, rtid⟩ :: s.auditLog }

/-- Modelled from the spec: `UserVerificationService.isEmailVerified`. -/
def isEmailVerified (uid : Nat) (s : DbState) : Bool :=
  s.verified.contains uid

/-- Modelled from the spec: `UserVerificationService.markEmailVerified`. -/
def markEmailVerified (uid : Nat) (s : DbState) : DbState :=
  { s with verified := uid :: s.verified }

/-- Modelled from the spec: `AuthService.sendUserVerificationEmail` —
dispatches one verification email to the user. -/
def sendUserVerificationEmail (uid : Nat) (s : DbState) : DbState :=
  { s with emailsSent := uid :: s.emailsSent }

/-- Persisting the provider-linkage row (`googleSsoRepository.createGoogleSso`). -/
def createGoogleSsoRow (uid : Nat) (s : DbState) : DbState :=
  { s with ssoRows := uid :: s.ssoRows }

/-- The token strings of the user's currently active refresh tokens. -/
def activeTokensFor (uid : Nat) (s : DbState) : List String :=
  (s.tokens.filter (fun r => r.userId == uid && r.active)).map (fun r => r.token)

/-- A local user row (src/common/interfaces/database.interface). -/
structure User where
  id : Nat
  email : String
deriving DecidableEq, Repr

/-- The Google user DTO carried into `googleLogin`. -/
structure GoogleUserDto where
  email : String
  emailVerified : Bool
deriving DecidableEq, Repr

/-- The access token minted by `generateJwtToken` for a user (opaque here). -/
def accessTokenFor (uid : Nat) : String :=
  "jwt:" ++ toString uid

/-- Outcomes of the collaborator calls `googleLogin` awaits: the user
lookup (which can throw, or return null), and whether each of the three
other awaited writes/reads succeeds or throws. -/
structure LoginEnv where
  userLookup : Except Unit (Option User)
  ssoWriteOk : Bool
  verifLookupOk : Bool
  markVerifiedOk : Bool
deriving Repr

/-- Lines 202-214 of googleLogin: when a refresh token was supplied
(non-empty — JavaScript truthiness on a string), deactivate all existing
refresh tokens for the user and persist the new one, capturing its id. -/
def tokenStep (uid : Nat) (refreshToken : String) (s : DbState) : Option Nat × DbState :=
  if refreshToken = "" then (none, s)
  else
    let s' := deactivateRefreshTokens uid s
    let p := createRefreshToken uid refreshToken s'
    (some p.1, p.2)

/-- The body of `googleLogin`'s try-block (src/google-sso.service.ts lines
196-242), threading the database state through every collaborator call;
a collaborator that throws leaves its own write unperformed but keeps all
earlier writes. -/
def loginTry (env : LoginEnv) (googleUser : GoogleUserDto) (refreshToken : String)
    (s : DbState) : Except AuthError String × DbState :=
  match env.userLookup with
  | .error _ => (.error .serviceError, s)
  | .ok none => (.error .typeError, s)
  | .ok (some user) =>
    let step := tokenStep user.id refreshToken s
    let rtid := step.1
    let s1 := step.2
    if env.ssoWriteOk then
      let s2 := createGoogleSsoRow user.id s1
      if env.verifLookupOk then
        if !isEmailVerified user.id s2 && googleUser.emailVerified then
          if env.markVerifiedOk then
            let s3 := markEmailVerified user.id s2
            (.ok (accessTokenFor user.id), logEvent (some user.id) .login .success none rtid s3)
          else (.error .serviceError, s2)
        else (.ok (accessTokenFor user.id), logEvent (some user.id) .login .success none rtid s2)
      else (.error .serviceError, s2)
    else (.error .serviceError, s1)

/-- The user id `googleLogin` has resolved before any later failure: set
right after the email lookup, null until then. -/
def resolvedUserId (env : LoginEnv) : Option Nat :=
  match env.userLookup with
  | .ok (some u) => some u.id
  | _ => none

/-- `googleLogin` (src/google-sso.service.ts lines 193-256): the try body,
and on any exception one (Login, Failure) audit record with the fixed
unexpected-error reason code, then the single `GoogleAuthFailedException`. -/
def googleLogin (env : LoginEnv) (googleUser : GoogleUserDto) (refreshToken : String)
    (s : DbState) : Except AuthError String × DbState :=
  match loginTry env googleUser refreshToken s with
  | (.ok tok, s') => (.ok tok, s')
  | (.error _, s') =>
    (.error .googleAuthFailed,
     logEvent (resolvedUserId env) .login .failure (some .unexpectedGoogleSso) none s')

/-- The stored refresh token handed to `refreshGoogleAccessToken`
(fields of the RefreshToken row the flow reads). -/
structure StoredRefreshToken where
  token : String
  expiresOn : Nat
deriving DecidableEq, Repr

/-- The provider's TokenSet: access token and optional rotated refresh
token (id token is folded into the user-lookup outcome below). -/
structure TokenSet where
  accessToken : Option String
  refreshToken : Option String
deriving DecidableEq, Repr

/-- The falsiness test `!newTokenSet || !newTokenSet.access_token`:
a null response, a missing access token, or an empty one. -/
def tokenSetHasAccessToken : Option TokenSet → Bool
  | none => false
  | some ts =>
    match ts.accessToken with
    | none => false
    | some a => a ≠ ""

/-- Outcomes of the calls `refreshGoogleAccessToken` awaits: the current
time, the provider refresh (throw, or a possibly-null token set), and the
decode-then-lookup of the local user (throw, null, or a user). -/
structure RefreshEnv where
  now : Nat
  providerRefresh : Except Unit (Option TokenSet)
  userLookup : Except Unit (Option User)
deriving Repr

/-- The result value of a successful refresh (`AuthTokens`): the minted
access token and, only when the provider rotated, the new refresh token. -/
structure AuthTokens where
  accessToken : String
  refreshToken : Option String
deriving DecidableEq, Repr

/-- The body of `refreshGoogleAccessToken`'s try-block
(src/google-sso.service.ts lines 130-173): expiry check first, then the
provider call, the access-token check, the last-used stamp, the user
re-resolution, and the optional rotation. -/
def refreshTry (env : RefreshEnv) (rt : StoredRefreshToken) (userId : Nat)
    (s : DbState) : Except AuthError AuthTokens × DbState :=
  if env.now > rt.expiresOn then
    (.error .expiredRefreshToken, deactivateRefreshTokens userId s)
  else
    match env.providerRefresh with
    | .error _ => (.error .providerError, s)
    | .ok newTokenSet =>
      if tokenSetHasAccessToken newTokenSet = false then
        (.error .unexpectedRefresh, s)
      else
        match newTokenSet with
        | none => (.error .unexpectedRefresh, s)
        | some ts =>
          let s1 := updateLastUsedOn rt.token env.now s
          match env.userLookup with
          | .error _ => (.error .serviceError, s1)
          | .ok none => (.error .userNotFound, s1)
          | .ok (some user) =>
            match ts.refreshToken with
            | some newTok =>
              let s2 := deactivateRefreshTokens user.id s1
              let s3 := (createRefreshToken user.id newTok s2).2
              (.ok ⟨accessTokenFor user.id, some newTok⟩, s3)
            | none =>
              (.ok ⟨accessTokenFor user.id, none⟩, s1)

/-- The allow-list re-throw of the catch block (lines 174-183): the three
recognized exception kinds pass unchanged, everything else becomes
`UnexpectedErrorWhenRefreshingAccessTokenException`. -/
def normalizeRefreshError (e : AuthError) : AuthError :=
  if e = .expiredRefreshToken ∨ e = .userNotFound ∨ e = .invalidRefreshToken then e
  else .unexpectedRefresh

/-- `refreshGoogleAccessToken` (src/google-sso.service.ts lines 128-184). -/
def refreshGoogleAccessToken (env : RefreshEnv) (rt : StoredRefreshToken) (userId : Nat)
    (s : DbState) : Except AuthError AuthTokens × DbState :=
  match refreshTry env rt userId s with
  | (.ok r, s') => (.ok r, s')
  | (.error e, s') => (.error (normalizeRefreshError e), s')

/-- Inputs createGoogleSsoUser resolves from its collaborators on the
path the registration scenario exercises: the validating provider refresh,
the decoded id-token payload, and the id of the freshly created user. -/
structure RegisterEnv where
  newTokenSet : TokenSet
  payloadEmailVerified : Bool
  newUserId : Nat
deriving Repr

/-- Modelled from the spec: `UserVerificationService.createUserVerification`
creates the (initially unverified) verification record; the verified set is
unchanged. -/
def createUserVerification (_uid : Nat) (s : DbState) : DbState := s

/-- `createGoogleSsoUser` (src/google-sso.service.ts lines 55-104) on the
path where every collaborator call succeeds: create the user, persist the
SSO row and the verification record, then either mark the email verified
(provider says verified) or dispatch a verification email, log one
(Registration, Success) event, and persist the refresh token (the
provider's rotated one if present, else the supplied one). -/
def createGoogleSsoUser (env : RegisterEnv) (refreshToken : String)
    (s : DbState) : AuthTokens × DbState :=
  let uid := env.newUserId
  let s1 := createGoogleSsoRow uid s
  let s2 := createUserVerification uid s1
  let s3 :=
    if env.payloadEmailVerified then markEmailVerified uid s2
    else sendUserVerificationEmail uid s2
  let s4 := logEvent (some uid) .registration .success none none s3
  let storedToken :=
    match env.newTokenSet.refreshToken with
    | some t => t
    | none => refreshToken
  let s5 := (createRefreshToken uid storedToken s4).2
  (⟨accessTokenFor uid, some storedToken⟩, s5)

end SsoAuth

namespace Middleware

/-- A named cookie. -/
structure Cookie where
  name : String
  value : String
deriving DecidableEq, Repr

/-- The inbound request as the middleware reads it.  The classification
into user-session / patient-session cookies is Modelled from the spec:
`getUserSessionCookies` and `getPatientSessionCookie` live in a helpers
module that is not in src/, so the request carries their results. -/
structure MwRequest where
  cookies : List Cookie
  userSessionCookies : List Cookie
  patientSessionCookie : Option Cookie
deriving DecidableEq, Repr

/-- `request.cookies.get(name)?.value`. -/
def getCookie (req : MwRequest) (n : String) : Option String :=
  (req.cookies.find? (fun c => c.name == n)).map (fun c => c.value)

/-- `cookiesHasFetchedActor` (src/authenticate-user.middleware.ts lines
81-96): true exactly when one user-session cookie is present and the
companion marker cookie `user-<sessionId>` holds the same value. -/
def cookiesHasFetchedActor (req : MwRequest) : Bool :=
  if req.userSessionCookies.length < 1 && req.patientSessionCookie.isNone then false
  else
    match req.userSessionCookies with
    | [c] => getCookie req ("user-" ++ c.name) == some c.value
    | _ => false

/-- The actor payload of the identity fetch: a User (with a preferred
language) or a Patient. -/
inductive ActorMe where
  | user (language : String)
  | patient
deriving DecidableEq, Repr

/-- The `loggedUser` field of a successful fetch: possibly-null actor,
auth token, session id. -/
structure ActorResponse where
  me : Option ActorMe
  token : String
  sessionId : String
deriving DecidableEq, Repr

/-- One outbound cookie/header mutation. -/
inductive CookieOp where
  | setOp (name value : String)
  | delOp (name : String)
deriving DecidableEq, Repr

/-- The outbound response: pass-through or redirect, with its cookie and
header mutations in order. -/
structure MwResponse where
  redirect : Bool
  cookieOps : List CookieOp
  headerOps : List CookieOp
deriving DecidableEq, Repr

/-- `clearSessionCookies` (lines 98-108): delete the `logged-user` and
`authToken` cookies and headers. -/
def clearSessionCookies : MwResponse :=
  ⟨false,
   [.delOp "logged-user", .delOp "authToken"],
   [.delOp "logged-user", .delOp "authToken"]⟩

/-- `userNeedsLangRedirect` (lines 110-121).  The route-language helpers
are Modelled from the spec: the request's path language is carried as a
field, and `nb` maps to `no`. -/
def userNeedsLangRedirect (me : ActorMe) (pathLang : String) (req : MwRequest) : Bool :=
  match me with
  | .patient => false
  | .user language =>
    if (getCookie req "logged-user").isSome then false
    else pathLang != (if language = "nb" then "no" else language)

/-- `markSessionFetched` (lines 68-79): the short-lived marker cookie
`user-<sessionId>=<sessionValue>`. -/
def markSessionFetched (userSessionId : String) : CookieOp :=
  match userSessionId.splitOn "=" with
  | sessionId :: sessionValue :: _ => .setOp ("user-" ++ sessionId) sessionValue
  | _ => .setOp ("user-" ++ userSessionId) ""

/-- `setActorCookies` (lines 30-65): choose redirect or pass-through, set
the marker cookie for User actors, then set `logged-user` and `authToken`
as cookies and as mirrored headers.  `removeNonValidSessions` is from the
missing helpers module; Modelled from the spec, which assigns it no
outbound mutations of `logged-user`/`authToken`, it contributes none. -/
def setActorCookies (ar : ActorResponse) (me : ActorMe) (pathLang : String)
    (req : MwRequest) : MwResponse :=
  let isUserActor := match me with | .user _ => true | .patient => false
  let meStr := "me:" ++ (match me with | .user l => "user-" ++ l | .patient => "patient")
  let markerOps := if isUserActor then [markSessionFetched ar.sessionId] else []
  ⟨userNeedsLangRedirect me pathLang req,
   markerOps ++ [.setOp "logged-user" meStr, .setOp "authToken" ar.token],
   [.setOp "logged-user" meStr, .setOp "authToken" ar.token]⟩

/-- The middleware's observable outcome: whether the identity fetch ran,
and the response it returned (none models `return;` with no response). -/
structure MwOutcome where
  fetched : Bool
  response : Option MwResponse
deriving DecidableEq, Repr

/-- `authenticateUserMiddleware` (src/authenticate-user.middleware.ts
lines 13-25).  `fetchResult` is the outcome of `fetchLoggedInUserInfo`:
an error, or a possibly-null `loggedUser` payload. -/
def authenticateUserMiddleware (fetchResult : Except Unit (Option ActorResponse))
    (pathLang : String) (req : MwRequest) : MwOutcome :=
  if cookiesHasFetchedActor req then ⟨false, none⟩
  else
    match fetchResult with
    | .error _ => ⟨true, none⟩
    | .ok none => ⟨true, some clearSessionCookies⟩
    | .ok (some ar) =>
      match ar.me with
      | none => ⟨true, some clearSessionCookies⟩
      | some me => ⟨true, some (setActorCookies ar me pathLang req)⟩

/-- Applying one outbound mutation to a browser cookie jar. -/
def applyOp (jar : List Cookie) : CookieOp → List Cookie
  | .setOp n v => (jar.filter (fun c => c.name ≠ n)) ++ [⟨n, v⟩]
  | .delOp n => jar.filter (fun c => c.name ≠ n)

/-- Applying a response's mutations in order. -/
def applyOps (jar : List Cookie) (ops : List CookieOp) : List Cookie :=
  ops.foldl applyOp jar

end Middleware

namespace AuthContext

/-- A user entity attached to the request (src/unnamed/part_002, `User`
minus its id, as `AuthUser` omits it). -/
structure RUser where
  email : String
  roles : List String
  language : String
deriving DecidableEq, Repr

/-- `AuthPatient`. -/
structure RPatient where
  patientId : Nat
  code : String
  token : String
deriving DecidableEq, Repr

/-- The HTTP headers `getLang`/`getPathname` read. -/
structure ReqHeaders where
  acceptLanguage : Option String
  xPageUrl : Option String
  origin : Option String
deriving DecidableEq, Repr

/-- The `ExtendedRequest` fields the auth context reads. -/
structure ExtendedRequest where
  user : Option RUser
  patient : Option RPatient
  sessionId : Option String
  windowId : Option String
  headers : ReqHeaders
deriving DecidableEq, Repr

/-- `AuthUser`: the request user enriched with the session id and the
customers-admin flag. -/
structure AuthUser where
  email : String
  roles : List String
  language : String
  sessionId : String
  isCustomersAdmin : Bool
deriving DecidableEq, Repr

/-- The GraphQL context value (`IGqlContext`). -/
structure GqlContext where
  lang : String
  pathname : String
  windowId : Option String
  user : Option AuthUser
  patient : Option RPatient
deriving DecidableEq, Repr

/-- Modelled from the spec: `RolesCustomerAdmin` (the enums module is not
in src/) — the role names counted as customers-admin. -/
def RolesCustomerAdmin : List String :=
  ["CUSTOMER_ADMIN"]

/-- Modelled from the spec: `hasOneOfTheRoles` — whether the user holds
at least one of the given roles. -/
def hasOneOfTheRoles (roles target : List String) : Bool :=
  roles.any (fun r => target.contains r)

/-- `isCustomersAdmin` (src/unnamed/part_002 lines 38-41). -/
def isCustomersAdmin : Option RUser → Bool
  | none => false
  | some u => hasOneOfTheRoles u.roles RolesCustomerAdmin

/-- `getLang` (lines 92-97): `z.enum(['en','no']).catch('no')` over the
accept-language header. -/
def getLang (h : ReqHeaders) : String :=
  match h.acceptLanguage with
  | some "en" => "en"
  | some "no" => "no"
  | _ => "no"

/-- JavaScript `String.prototype.replace` with a string pattern: replace
the first occurrence only (here with the empty string). -/
def removeFirst (s pat : String) : String :=
  if pat = "" then s
  else
    match s.splitOn pat with
    | [] => s
    | [whole] => whole
    | h :: t => h ++ String.intercalate pat t

/-- `getPathname` (lines 85-90): strip the origin from the page URL. -/
def getPathname (h : ReqHeaders) : String :=
  removeFirst (h.xPageUrl.getD "") (h.origin.getD "")

/-- `getExtendedRequestAuthContext` (src/unnamed/part_002 lines 20-36):
user first, then patient, else undefined. -/
def getExtendedRequestAuthContext (req : ExtendedRequest) : Option GqlContext :=
  let lang := getLang req.headers
  let pathname := getPathname req.headers
  match req.user with
  | some u =>
    some ⟨lang, pathname, req.windowId,
          some ⟨u.email, u.roles, u.language, req.sessionId.getD "", isCustomersAdmin (some u)⟩,
          none⟩
  | none =>
    match req.patient with
    | some p => some ⟨lang, pathname, req.windowId, none, some p⟩
    | none => none

/-- `getAuthContext` (lines 43-50): resolve the context, throwing when
neither user nor patient is present. -/
def getAuthContext (req : ExtendedRequest) : Except Unit GqlContext :=
  match getExtendedRequestAuthContext req with
  | none => .error ()
  | some c =>
    if c.user.isNone && c.patient.isNone then .error ()
    else .ok c

end AuthContext

namespace SsoAuth

theorem deactivate_auditLog (uid : Nat) (s : DbState) :
    (deactivateRefreshTokens uid s).auditLog = s.auditLog := rfl

theorem deactivate_verified (uid : Nat) (s : DbState) :
    (deactivateRefreshTokens uid s).verified = s.verified := rfl

theorem deactivate_emailsSent (uid : Nat) (s : DbState) :
    (deactivateRefreshTokens uid s).emailsSent = s.emailsSent := rfl

theorem deactivate_nextTokenId (uid : Nat) (s : DbState) :
    (deactivateRefreshTokens uid s).nextTokenId = s.nextTokenId := rfl

theorem create_auditLog (uid : Nat) (tok : String) (s : DbState) :
    ((createRefreshToken uid tok s).2).auditLog = s.auditLog := rfl

theorem create_verified (uid : Nat) (tok : String) (s : DbState) :
    ((createRefreshToken uid tok s).2).verified = s.verified := rfl

theorem create_emailsSent (uid : Nat) (tok : String) (s : DbState) :
    ((createRefreshToken uid tok s).2).emailsSent = s.emailsSent := rfl

theorem ssoRow_tokens (uid : Nat) (s : DbState) :
    (createGoogleSsoRow uid s).tokens = s.tokens := rfl

theorem ssoRow_auditLog (uid : Nat) (s : DbState) :
    (createGoogleSsoRow uid s).auditLog = s.auditLog := rfl

theorem ssoRow_verified (uid : Nat) (s : DbState) :
    (createGoogleSsoRow uid s).verified = s.verified := rfl

theorem ssoRow_emailsSent (uid : Nat) (s : DbState) :
    (createGoogleSsoRow uid s).emailsSent = s.emailsSent := rfl

theorem mark_tokens (uid : Nat) (s : DbState) :
    (markEmailVerified uid s).tokens = s.tokens := rfl

theorem mark_auditLog (uid : Nat) (s : DbState) :
    (markEmailVerified uid s).auditLog = s.auditLog := rfl

theorem mark_emailsSent (uid : Nat) (s : DbState) :
    (markEmailVerified uid s).emailsSent = s.emailsSent := rfl

theorem mark_verified (uid : Nat) (s : DbState) :
    (markEmailVerified uid s).verified = uid :: s.verified := rfl

theorem send_verified (uid : Nat) (s : DbState) :
    (sendUserVerificationEmail uid s).verified = s.verified := rfl

theorem send_emailsSent (uid : Nat) (s : DbState) :
    (sendUserVerificationEmail uid s).emailsSent = uid :: s.emailsSent := rfl

theorem logEvent_tokens (uid : Option Nat) (ty : EventType) (st : AuthStatus)
    (msg : Option LogErrMsg) (rtid : Option Nat) (s : DbState) :
    (logEvent uid ty st msg rtid s).tokens = s.tokens := rfl

theorem logEvent_verified (uid : Option Nat) (ty : EventType) (st : AuthStatus)
    (msg : Option LogErrMsg) (rtid : Option Nat) (s : DbState) :
    (logEvent uid ty st msg rtid s).verified = s.verified := rfl

theorem logEvent_emailsSent (uid : Option Nat) (ty : EventType) (st : AuthStatus)
    (msg : Option LogErrMsg) (rtid : Option Nat) (s : DbState) :
    (logEvent uid ty st msg rtid s).emailsSent = s.emailsSent := rfl

theorem logEvent_auditLog (uid : Option Nat) (ty : EventType) (st : AuthStatus)
    (msg : Option LogErrMsg) (rtid : Option Nat) (s : DbState) :
    (logEvent uid ty st msg rtid s).auditLog = ⟨uid, ty, st, msg, rtid⟩ :: s.auditLog := rfl

theorem activeTokensFor_tokens_eq {s s' : DbState} (uid : Nat) (h : s.tokens = s'.tokens) :
    activeTokensFor uid s = activeTokensFor uid s' := by
  unfold activeTokensFor
  rw [h]

theorem activeTokensFor_deactivate (uid : Nat) (s : DbState) :
    activeTokensFor uid (deactivateRefreshTokens uid s) = [] := by
  unfold activeTokensFor deactivateRefreshTokens
  simp only
  induction s.tokens with
  | nil => rfl
  | cons r t ih =>
    by_cases h : r.userId = uid
    · simpa [h] using ih
    · simpa [h] using ih

theorem activeTokensFor_create (uid : Nat) (tok : String) (s : DbState) :
    activeTokensFor uid (createRefreshToken uid tok s).2 = activeTokensFor uid s ++ [tok] := by
  unfold activeTokensFor createRefreshToken
  simp

theorem activeTokensFor_updateLastUsed (uid : Nat) (tok : String) (now : Nat) (s : DbState) :
    activeTokensFor uid (updateLastUsedOn tok now s) = activeTokensFor uid s := by
  unfold activeTokensFor updateLastUsedOn
  simp only
  induction s.tokens with
  | nil => rfl
  | cons r t ih =>
    by_cases h : r.token = tok
    · by_cases hp : (r.userId == uid && r.active) = true
      · simp only [List.map_cons, h, if_pos rfl]
        rw [List.filter_cons_of_pos, List.filter_cons_of_pos]
        · simpa [h] using ih
        · exact hp
        · exact hp
      · simp only [List.map_cons, h, if_pos rfl]
        rw [List.filter_cons_of_neg, List.filter_cons_of_neg]
        · exact ih
        · simpa using hp
        · simpa using hp
    · by_cases hp : (r.userId == uid && r.active) = true
      · simp only [List.map_cons, if_neg h]
        rw [List.filter_cons_of_pos, List.filter_cons_of_pos]
        · simpa using ih
        · exact hp
        · exact hp
      · simp only [List.map_cons, if_neg h]
        rw [List.filter_cons_of_neg, List.filter_cons_of_neg]
        · exact ih
        · simpa using hp
        · simpa using hp

/-- C2: when the stored token is already expired at call time, the refresh
flow deactivates all of the user's refresh tokens and fails with
ExpiredRefreshTokenException, before and independently of any provider
call, leaving zero active tokens for the user. -/
theorem refresh_expired_deactivates_all (env : RefreshEnv) (rt : StoredRefreshToken)
    (userId : Nat) (s : DbState) (h : env.now > rt.expiresOn) :
    refreshGoogleAccessToken env rt userId s =
      (Except.error AuthError.expiredRefreshToken, deactivateRefreshTokens userId s) ∧
    activeTokensFor userId (refreshGoogleAccessToken env rt userId s).2 = [] ∧
    (∀ pr ul, refreshGoogleAccessToken ⟨env.now, pr, ul⟩ rt userId s =
      refreshGoogleAccessToken env rt userId s) := by
  have hbody : ∀ pr ul, refreshGoogleAccessToken ⟨env.now, pr, ul⟩ rt userId s =
      (Except.error AuthError.expiredRefreshToken, deactivateRefreshTokens userId s) := by
    intro pr ul
    unfold refreshGoogleAccessToken refreshTry normalizeRefreshError
    simp [h]
  have hmain := hbody env.providerRefresh env.userLookup
  refine ⟨hmain, ?_, ?_⟩
  · rw [hmain]
    exact activeTokensFor_deactivate userId s
  · intro pr ul
    rw [hbody pr ul, hmain]

/-- Witness for C2 at a concrete expired token. -/
theorem refresh_expired_deactivates_all_witness :
    refreshGoogleAccessToken ⟨5, Except.error (), Except.error ()⟩ ⟨"t", 3⟩ 1
        ⟨[⟨0, 1, "t", true, 0⟩], 1, [], [], [], []⟩ =
      (Except.error AuthError.expiredRefreshToken,
       deactivateRefreshTokens 1 ⟨[⟨0, 1, "t", true, 0⟩], 1, [], [], [], []⟩) :=
  (refresh_expired_deactivates_all ⟨5, Except.error (), Except.error ()⟩ ⟨"t", 3⟩ 1
    ⟨[⟨0, 1, "t", true, 0⟩], 1, [], [], [], []⟩ (by decide)).1

theorem refresh_failure_helper (env : RefreshEnv) (rt : StoredRefreshToken)
    (userId : Nat) (s : DbState) (hexp : ¬ env.now > rt.expiresOn)
    (hfail : env.providerRefresh = Except.error () ∨
      (∃ ts, env.providerRefresh = Except.ok ts ∧ tokenSetHasAccessToken ts = false)) :
    (refreshGoogleAccessToken env rt userId s).2 = s ∧
    (refreshGoogleAccessToken env rt userId s).1 = Except.error AuthError.unexpectedRefresh := by
  rcases hfail with herr | ⟨ts, hok, hat⟩
  · unfold refreshGoogleAccessToken refreshTry normalizeRefreshError
    simp [hexp, herr]
  · unfold refreshGoogleAccessToken refreshTry normalizeRefreshError
    simp [hexp, hok, hat]

/-- C9: on a non-expired token, if the provider call throws or its response
carries no usable access token, the refresh attempt fails and the stored
refresh-token state is completely unchanged. -/
theorem refresh_provider_failure_no_mutation (env : RefreshEnv) (rt : StoredRefreshToken)
    (userId : Nat) (s : DbState) (hexp : ¬ env.now > rt.expiresOn)
    (hfail : env.providerRefresh = Except.error () ∨
      (∃ ts, env.providerRefresh = Except.ok ts ∧ tokenSetHasAccessToken ts = false)) :
    (refreshGoogleAccessToken env rt userId s).2 = s ∧
    (refreshGoogleAccessToken env rt userId s).1 = Except.error AuthError.unexpectedRefresh :=
  refresh_failure_helper env rt userId s hexp hfail

/-- Witness for C9: provider throws on a still-valid token. -/
theorem refresh_provider_failure_no_mutation_witness :
    (refreshGoogleAccessToken ⟨2, Except.error (), Except.error ()⟩ ⟨"t", 3⟩ 1
        ⟨[⟨0, 1, "t", true, 0⟩], 1, [], [], [], []⟩).2 =
      ⟨[⟨0, 1, "t", true, 0⟩], 1, [], [], [], []⟩ :=
  (refresh_provider_failure_no_mutation ⟨2, Except.error (), Except.error ()⟩ ⟨"t", 3⟩ 1
    ⟨[⟨0, 1, "t", true, 0⟩], 1, [], [], [], []⟩ (by decide) (Or.inl rfl)).1

theorem refreshTry_error_kinds (env : RefreshEnv) (rt : StoredRefreshToken)
    (userId : Nat) (s : DbState) :
    ∀ e s', refreshTry env rt userId s = (Except.error e, s') →
      e = AuthError.expiredRefreshToken ∨ e = AuthError.providerError ∨
      e = AuthError.unexpectedRefresh ∨ e = AuthError.serviceError ∨
      e = AuthError.userNotFound := by
  intro e s' h
  unfold refreshTry at h
  split at h
  · simp only [Prod.mk.injEq, Except.error.injEq] at h
    exact Or.inl h.1.symm
  · split at h
    · simp only [Prod.mk.injEq, Except.error.injEq] at h
      exact Or.inr (Or.inl h.1.symm)
    · split at h
      · simp only [Prod.mk.injEq, Except.error.injEq] at h
        exact Or.inr (Or.inr (Or.inl h.1.symm))
      · split at h
        · simp only [Prod.mk.injEq, Except.error.injEq] at h
          exact Or.inr (Or.inr (Or.inl h.1.symm))
        · split at h
          · simp only [Prod.mk.injEq, Except.error.injEq] at h
            exact Or.inr (Or.inr (Or.inr (Or.inl h.1.symm)))
          · simp only [Prod.mk.injEq, Except.error.injEq] at h
            exact Or.inr (Or.inr (Or.inr (Or.inr h.1.symm)))
          · split at h
            · simp at h
            · simp at h

/-- C3: every failure of refreshGoogleAccessToken surfaces as one of
ExpiredRefreshTokenException, UserNotFoundException or the generic
UnexpectedErrorWhenRefreshingAccessTokenException; the catch block leaves
exactly the three recognized kinds (expired, user-not-found, invalid
refresh token) unchanged and normalizes every other exception to the
generic one; a missing or empty access token in the provider response
fails with the generic refresh error, which is distinct from expiry. -/
theorem refresh_error_allowlist (env : RefreshEnv) (rt : StoredRefreshToken)
    (userId : Nat) (s : DbState) :
    (∀ e s', refreshGoogleAccessToken env rt userId s = (Except.error e, s') →
      e = AuthError.expiredRefreshToken ∨ e = AuthError.userNotFound ∨
        e = AuthError.unexpectedRefresh) ∧
    (∀ e, (e = AuthError.expiredRefreshToken ∨ e = AuthError.userNotFound ∨
        e = AuthError.invalidRefreshToken) → normalizeRefreshError e = e) ∧
    (∀ e, ¬(e = AuthError.expiredRefreshToken ∨ e = AuthError.userNotFound ∨
        e = AuthError.invalidRefreshToken) →
      normalizeRefreshError e = AuthError.unexpectedRefresh) ∧
    (∀ e s', refreshTry env rt userId s = (Except.error e, s') →
      refreshGoogleAccessToken env rt userId s = (Except.error (normalizeRefreshError e), s')) ∧
    (¬ env.now > rt.expiresOn → ∀ ts, env.providerRefresh = Except.ok ts →
      tokenSetHasAccessToken ts = false →
      (refreshGoogleAccessToken env rt userId s).1 = Except.error AuthError.unexpectedRefresh) ∧
    AuthError.unexpectedRefresh ≠ AuthError.expiredRefreshToken := by
  refine ⟨?_, ?_, ?_, ?_, ?_, by decide⟩
  · intro e s' h
    unfold refreshGoogleAccessToken at h
    rcases hb : refreshTry env rt userId s with ⟨r, s₀⟩
    rw [hb] at h
    cases r with
    | ok v => simp at h
    | error e₀ =>
      simp only [Prod.mk.injEq, Except.error.injEq] at h
      rcases refreshTry_error_kinds env rt userId s e₀ s₀ hb with h1 | h1 | h1 | h1 | h1 <;>
        rw [← h.1, h1] <;> simp [normalizeRefreshError]
  · intro e h
    unfold normalizeRefreshError
    rw [if_pos h]
  · intro e h
    unfold normalizeRefreshError
    rw [if_neg h]
  · intro e s' h
    unfold refreshGoogleAccessToken
    rw [h]
  · intro hexp ts hok hat
    exact (refresh_failure_helper env rt userId s hexp (Or.inr ⟨ts, hok, hat⟩)).2

/-- Witness for C3: a provider throw on a valid token is normalized to the
generic refresh failure, and a recognized kind passes unchanged. -/
theorem refresh_error_allowlist_witness :
    refreshGoogleAccessToken ⟨2, Except.error (), Except.error ()⟩ ⟨"t", 3⟩ 1
        ⟨[], 0, [], [], [], []⟩ =
      (Except.error (normalizeRefreshError AuthError.providerError), ⟨[], 0, [], [], [], []⟩) ∧
    normalizeRefreshError AuthError.userNotFound = AuthError.userNotFound := by
  constructor
  · exact (refresh_error_allowlist ⟨2, Except.error (), Except.error ()⟩ ⟨"t", 3⟩ 1
      ⟨[], 0, [], [], [], []⟩).2.2.2.1 AuthError.providerError ⟨[], 0, [], [], [], []⟩ rfl
  · exact (refresh_error_allowlist ⟨2, Except.error (), Except.error ()⟩ ⟨"t", 3⟩ 1
      ⟨[], 0, [], [], [], []⟩).2.1 AuthError.userNotFound (Or.inr (Or.inl rfl))

/-- C4: on a successful refresh the token's last-used timestamp is
updated; when the provider rotated the refresh token, all prior tokens of
the user are deactivated, the new token is persisted and returned, and it
is the sole active one; when the provider returned no new refresh token,
the result's refreshToken field is absent, the store only gains the
last-used stamp, and the original token remains the sole active one. -/
theorem refresh_success_rotation (env : RefreshEnv) (rt : StoredRefreshToken)
    (userId : Nat) (s : DbState) (ts : TokenSet) (user : User)
    (hexp : ¬ env.now > rt.expiresOn)
    (hp : env.providerRefresh = Except.ok (some ts))
    (hat : tokenSetHasAccessToken (some ts) = true)
    (hu : env.userLookup = Except.ok (some user)) :
    (refreshGoogleAccessToken env rt userId s).1 =
      Except.ok ⟨accessTokenFor user.id, ts.refreshToken⟩ ∧
    (∀ t, ts.refreshToken = some t →
      (refreshGoogleAccessToken env rt userId s).2 =
        (createRefreshToken user.id t
          (deactivateRefreshTokens user.id (updateLastUsedOn rt.token env.now s))).2 ∧
      activeTokensFor user.id (refreshGoogleAccessToken env rt userId s).2 = [t]) ∧
    (ts.refreshToken = none →
      (refreshGoogleAccessToken env rt userId s).2 = updateLastUsedOn rt.token env.now s ∧
      activeTokensFor user.id (refreshGoogleAccessToken env rt userId s).2 =
        activeTokensFor user.id s ∧
      (activeTokensFor userId s = [rt.token] →
        activeTokensFor userId (refreshGoogleAccessToken env rt userId s).2 = [rt.token])) := by
  cases hrt : ts.refreshToken with
  | some t =>
    have hred : refreshGoogleAccessToken env rt userId s =
        (Except.ok ⟨accessTokenFor user.id, some t⟩,
         (createRefreshToken user.id t
           (deactivateRefreshTokens user.id (updateLastUsedOn rt.token env.now s))).2) := by
      unfold refreshGoogleAccessToken refreshTry
      simp [hexp, hp, hat, hu, hrt]
    refine ⟨by rw [hred], ?_, ?_⟩
    · intro t' ht'
      simp only [Option.some.injEq] at ht'
      subst ht'
      refine ⟨by rw [hred], ?_⟩
      rw [hred]
      simp only
      rw [activeTokensFor_create, activeTokensFor_deactivate]
      rfl
    · intro hnone
      simp at hnone
  | none =>
    have hred : refreshGoogleAccessToken env rt userId s =
        (Except.ok ⟨accessTokenFor user.id, none⟩, updateLastUsedOn rt.token env.now s) := by
      unfold refreshGoogleAccessToken refreshTry
      simp [hexp, hp, hat, hu, hrt]
    refine ⟨by rw [hred], ?_, ?_⟩
    · intro t' ht'
      simp at ht'
    · intro _
      refine ⟨by rw [hred], ?_, ?_⟩
      · rw [hred]
        exact activeTokensFor_updateLastUsed user.id rt.token env.now s
      · intro hsole
        rw [hred]
        simp only
        rw [activeTokensFor_updateLastUsed]
        exact hsole

/-- Witness for C4: a concrete successful refresh without rotation keeps
the sole active token and returns no new refresh token. -/
theorem refresh_success_rotation_witness :
    (refreshGoogleAccessToken ⟨2, Except.ok (some ⟨some "at", none⟩), Except.ok (some ⟨1, "e"⟩)⟩
        ⟨"t", 3⟩ 1 ⟨[⟨0, 1, "t", true, 0⟩], 1, [], [], [], []⟩).1 =
      Except.ok ⟨accessTokenFor 1, none⟩ :=
  (refresh_success_rotation ⟨2, Except.ok (some ⟨some "at", none⟩), Except.ok (some ⟨1, "e"⟩)⟩
    ⟨"t", 3⟩ 1 ⟨[⟨0, 1, "t", true, 0⟩], 1, [], [], [], []⟩ ⟨some "at", none⟩ ⟨1, "e"⟩
    (by decide) rfl (by decide) rfl).1

theorem tokenStep_auditLog (uid : Nat) (rt : String) (s : DbState) :
    ((tokenStep uid rt s).2).auditLog = s.auditLog := by
  unfold tokenStep
  split <;> rfl

theorem tokenStep_verified (uid : Nat) (rt : String) (s : DbState) :
    ((tokenStep uid rt s).2).verified = s.verified := by
  unfold tokenStep
  split <;> rfl

theorem tokenStep_emailsSent (uid : Nat) (rt : String) (s : DbState) :
    ((tokenStep uid rt s).2).emailsSent = s.emailsSent := by
  unfold tokenStep
  split <;> rfl

theorem tokenStep_fst (uid : Nat) (rt : String) (s : DbState) :
    (tokenStep uid rt s).1 = if rt = "" then none else some s.nextTokenId := by
  unfold tokenStep
  split <;> rfl

theorem tokenStep_tokens (uid : Nat) (rt : String) (s : DbState) :
    ((tokenStep uid rt s).2).tokens =
      if rt = "" then s.tokens
      else ((createRefreshToken uid rt (deactivateRefreshTokens uid s)).2).tokens := by
  unfold tokenStep
  split <;> simp_all

theorem loginTry_ok_spec (env : LoginEnv) (gu : GoogleUserDto) (rt : String) (s : DbState) :
    ∀ tok s', loginTry env gu rt s = (Except.ok tok, s') →
      ∃ u, env.userLookup = Except.ok (some u) ∧ tok = accessTokenFor u.id ∧
        ∃ s₃, s' = logEvent (some u.id) EventType.login AuthStatus.success none
            (tokenStep u.id rt s).1 s₃ ∧
          s₃.auditLog = s.auditLog ∧
          s₃.tokens = ((tokenStep u.id rt s).2).tokens ∧
          s₃.emailsSent = s.emailsSent ∧
          (s₃.verified = s.verified ∨ s₃.verified = u.id :: s.verified) := by
  intro tok s' h
  unfold loginTry at h
  rcases hul : env.userLookup with he | u?
  · rw [hul] at h
    simp at h
  · rw [hul] at h
    rcases u? with _ | u
    · simp at h
    · simp only at h
      refine ⟨u, rfl, ?_⟩
      by_cases hsso : env.ssoWriteOk = true
      · rw [if_pos hsso] at h
        by_cases hvl : env.verifLookupOk = true
        · rw [if_pos hvl] at h
          by_cases hmark :
              (!isEmailVerified u.id (createGoogleSsoRow u.id (tokenStep u.id rt s).2) &&
                gu.emailVerified) = true
          · rw [if_pos hmark] at h
            by_cases hmv : env.markVerifiedOk = true
            · rw [if_pos hmv] at h
              simp only [Prod.mk.injEq, Except.ok.injEq] at h
              refine ⟨h.1.symm, markEmailVerified u.id (createGoogleSsoRow u.id (tokenStep u.id rt s).2),
                h.2.symm, ?_, ?_, ?_, ?_⟩
              · rw [mark_auditLog, ssoRow_auditLog, tokenStep_auditLog]
              · rw [mark_tokens, ssoRow_tokens]
              · rw [mark_emailsSent, ssoRow_emailsSent, tokenStep_emailsSent]
              · right
                rw [mark_verified, ssoRow_verified, tokenStep_verified]
            · rw [if_neg hmv] at h
              simp at h
          · rw [if_neg hmark] at h
            simp only [Prod.mk.injEq, Except.ok.injEq] at h
            refine ⟨h.1.symm, createGoogleSsoRow u.id (tokenStep u.id rt s).2,
              h.2.symm, ?_, ?_, ?_, ?_⟩
            · rw [ssoRow_auditLog, tokenStep_auditLog]
            · rw [ssoRow_tokens]
            · rw [ssoRow_emailsSent, tokenStep_emailsSent]
            · left
              rw [ssoRow_verified, tokenStep_verified]
        · rw [if_neg hvl] at h
          simp at h
      · rw [if_neg hsso] at h
        simp at h

theorem loginTry_error_state (env : LoginEnv) (gu : GoogleUserDto) (rt : String) (s : DbState) :
    ∀ e s', loginTry env gu rt s = (Except.error e, s') →
      s'.auditLog = s.auditLog ∧ s'.emailsSent = s.emailsSent ∧
      (s'.verified = s.verified ∨ ∃ uid, s'.verified = uid :: s.verified) := by
  intro e s' h
  unfold loginTry at h
  rcases hul : env.userLookup with he | u?
  · rw [hul] at h
    simp only [Prod.mk.injEq] at h
    rw [← h.2]
    exact ⟨rfl, rfl, Or.inl rfl⟩
  · rw [hul] at h
    rcases u? with _ | u
    · simp only [Prod.mk.injEq] at h
      rw [← h.2]
      exact ⟨rfl, rfl, Or.inl rfl⟩
    · simp only at h
      by_cases hsso : env.ssoWriteOk = true
      · rw [if_pos hsso] at h
        by_cases hvl : env.verifLookupOk = true
        · rw [if_pos hvl] at h
          by_cases hmark :
              (!isEmailVerified u.id (createGoogleSsoRow u.id (tokenStep u.id rt s).2) &&
                gu.emailVerified) = true
          · rw [if_pos hmark] at h
            by_cases hmv : env.markVerifiedOk = true
            · rw [if_pos hmv] at h
              simp at h
            · rw [if_neg hmv] at h
              simp only [Prod.mk.injEq] at h
              rw [← h.2]
              refine ⟨?_, ?_, Or.inl ?_⟩
              · rw [ssoRow_auditLog, tokenStep_auditLog]
              · rw [ssoRow_emailsSent, tokenStep_emailsSent]
              · rw [ssoRow_verified, tokenStep_verified]
          · rw [if_neg hmark] at h
            simp at h
        · rw [if_neg hvl] at h
          simp only [Prod.mk.injEq] at h
          rw [← h.2]
          refine ⟨?_, ?_, Or.inl ?_⟩
          · rw [ssoRow_auditLog, tokenStep_auditLog]
          · rw [ssoRow_emailsSent, tokenStep_emailsSent]
          · rw [ssoRow_verified, tokenStep_verified]
      · rw [if_neg hsso] at h
        simp only [Prod.mk.injEq] at h
        rw [← h.2]
        refine ⟨?_, ?_, Or.inl ?_⟩
        · rw [tokenStep_auditLog]
        · rw [tokenStep_emailsSent]
        · rw [tokenStep_verified]

/-- C1: every googleLogin call writes exactly one audit record before it
returns or throws: on success one (Login, Success) event carrying the new
refresh-token id when a token was supplied (and none otherwise), and on
any exception inside the try-block exactly one (Login, Failure) event with
the fixed unexpected-error reason code and whatever user id was resolved
so far (possibly null), after which the single generic
GoogleAuthFailedException is thrown — never the internal exception. -/
theorem googleLogin_one_audit (env : LoginEnv) (gu : GoogleUserDto) (rt : String)
    (s : DbState) :
    ∃ e : AuthEvent, (googleLogin env gu rt s).2.auditLog = e :: s.auditLog ∧
      (∀ tok, (googleLogin env gu rt s).1 = Except.ok tok →
        e.eventType = EventType.login ∧ e.status = AuthStatus.success ∧
        e.errorMessage = none ∧ e.userId = resolvedUserId env ∧
        (rt = "" → e.refreshTokenId = none) ∧
        (¬ rt = "" → e.refreshTokenId = some s.nextTokenId)) ∧
      (∀ err, (googleLogin env gu rt s).1 = Except.error err →
        err = AuthError.googleAuthFailed ∧
        e = ⟨resolvedUserId env, EventType.login, AuthStatus.failure,
          some LogErrMsg.unexpectedGoogleSso, none⟩) := by
  rcases hlt : loginTry env gu rt s with ⟨r, s'⟩
  cases r with
  | ok tok =>
    have hgl : googleLogin env gu rt s = (Except.ok tok, s') := by
      unfold googleLogin
      rw [hlt]
    rcases loginTry_ok_spec env gu rt s tok s' hlt with
      ⟨u, hu, htok, s₃, hs', hal, _, _, _⟩
    refine ⟨⟨some u.id, .login, .success, none, (tokenStep u.id rt s).1⟩, ?_, ?_, ?_⟩
    · rw [hgl]
      simp only
      rw [hs', logEvent_auditLog, hal]
    · intro tok' _
      refine ⟨rfl, rfl, rfl, ?_, ?_, ?_⟩
      · simp [resolvedUserId, hu]
      · intro h0
        simp only
        rw [tokenStep_fst, if_pos h0]
      · intro h0
        simp only
        rw [tokenStep_fst, if_neg h0]
    · intro err herr
      rw [hgl] at herr
      simp at herr
  | error e0 =>
    have hgl : googleLogin env gu rt s =
        (Except.error .googleAuthFailed,
         logEvent (resolvedUserId env) .login .failure (some .unexpectedGoogleSso) none s') := by
      unfold googleLogin
      rw [hlt]
    have hstate := loginTry_error_state env gu rt s e0 s' hlt
    refine ⟨⟨resolvedUserId env, .login, .failure, some .unexpectedGoogleSso, none⟩, ?_, ?_, ?_⟩
    · rw [hgl]
      simp only
      rw [logEvent_auditLog, hstate.1]
    · intro tok htok
      rw [hgl] at htok
      simp at htok
    · intro err herr
      rw [hgl] at herr
      simp only [Except.error.injEq] at herr
      exact ⟨herr.symm, rfl⟩

/-- Witness for C1: a concrete successful login leaves exactly one audit
record. -/
theorem googleLogin_one_audit_witness :
    ((googleLogin ⟨Except.ok (some ⟨1, "e"⟩), true, true, true⟩ ⟨"e", false⟩ "r"
        ⟨[], 0, [], [], [], []⟩).2.auditLog).length = 1 := by
  obtain ⟨e, h1, _, _⟩ := googleLogin_one_audit ⟨Except.ok (some ⟨1, "e"⟩), true, true, true⟩
    ⟨"e", false⟩ "r" ⟨[], 0, [], [], [], []⟩
  rw [h1]
  rfl

theorem activeTokensFor_tokenStep (uid : Nat) (t : String) (s : DbState) :
    activeTokensFor uid ((tokenStep uid t s).2) =
      if t = "" then activeTokensFor uid s else [t] := by
  unfold tokenStep
  split
  · rfl
  · simp only
    rw [activeTokensFor_create, activeTokensFor_deactivate]
    rfl

theorem loginTry_ok_of_flags (env : LoginEnv) (gu : GoogleUserDto) (rt : String)
    (s : DbState) (u : User)
    (hu : env.userLookup = Except.ok (some u)) (hsso : env.ssoWriteOk = true)
    (hvl : env.verifLookupOk = true) (hmv : env.markVerifiedOk = true) :
    ∃ s', loginTry env gu rt s = (Except.ok (accessTokenFor u.id), s') ∧
      s'.tokens = ((tokenStep u.id rt s).2).tokens := by
  unfold loginTry
  rw [hu]
  simp only
  rw [if_pos hsso, if_pos hvl]
  by_cases hm : (!isEmailVerified u.id (createGoogleSsoRow u.id (tokenStep u.id rt s).2) &&
      gu.emailVerified) = true
  · rw [if_pos hm, if_pos hmv]
    exact ⟨_, rfl, by rw [logEvent_tokens, mark_tokens, ssoRow_tokens]⟩
  · rw [if_neg hm]
    exact ⟨_, rfl, by rw [logEvent_tokens, ssoRow_tokens]⟩

theorem googleLogin_flags_spec (env : LoginEnv) (gu : GoogleUserDto) (rt : String)
    (s : DbState) (u : User)
    (hu : env.userLookup = Except.ok (some u)) (hsso : env.ssoWriteOk = true)
    (hvl : env.verifLookupOk = true) (hmv : env.markVerifiedOk = true) :
    (googleLogin env gu rt s).1 = Except.ok (accessTokenFor u.id) ∧
    ((googleLogin env gu rt s).2).tokens = ((tokenStep u.id rt s).2).tokens := by
  obtain ⟨s', hlt, htk⟩ := loginTry_ok_of_flags env gu rt s u hu hsso hvl hmv
  unfold googleLogin
  rw [hlt]
  exact ⟨rfl, htk⟩

/-- C7: two sequential logins for the same user with two different
non-empty refresh tokens leave exactly one active refresh token for that
user — the second one: each login deactivates all existing tokens before
persisting the supplied one. -/
theorem googleLogin_twice_single_active (env1 env2 : LoginEnv) (gu1 gu2 : GoogleUserDto)
    (t1 t2 : String) (u : User) (s0 : DbState)
    (h1 : ¬ t1 = "") (h2 : ¬ t2 = "") (hne : ¬ t1 = t2)
    (hu1 : env1.userLookup = Except.ok (some u)) (hu2 : env2.userLookup = Except.ok (some u))
    (hsso1 : env1.ssoWriteOk = true) (hvl1 : env1.verifLookupOk = true)
    (hmv1 : env1.markVerifiedOk = true)
    (hsso2 : env2.ssoWriteOk = true) (hvl2 : env2.verifLookupOk = true)
    (hmv2 : env2.markVerifiedOk = true) :
    (googleLogin env1 gu1 t1 s0).1 = Except.ok (accessTokenFor u.id) ∧
    (googleLogin env2 gu2 t2 (googleLogin env1 gu1 t1 s0).2).1 =
      Except.ok (accessTokenFor u.id) ∧
    activeTokensFor u.id (googleLogin env2 gu2 t2 (googleLogin env1 gu1 t1 s0).2).2 =
      [t2] := by
  obtain ⟨hok1, _⟩ := googleLogin_flags_spec env1 gu1 t1 s0 u hu1 hsso1 hvl1 hmv1
  obtain ⟨hok2, htk2⟩ := googleLogin_flags_spec env2 gu2 t2 (googleLogin env1 gu1 t1 s0).2 u
    hu2 hsso2 hvl2 hmv2
  refine ⟨hok1, hok2, ?_⟩
  rw [activeTokensFor_tokens_eq u.id htk2, activeTokensFor_tokenStep, if_neg h2]

/-- Witness for C7 with tokens "a" then "b" on an initially empty store. -/
theorem googleLogin_twice_single_active_witness :
    activeTokensFor 1 (googleLogin ⟨Except.ok (some ⟨1, "e"⟩), true, true, true⟩ ⟨"e", false⟩
      "b" (googleLogin ⟨Except.ok (some ⟨1, "e"⟩), true, true, true⟩ ⟨"e", false⟩ "a"
        ⟨[], 0, [], [], [], []⟩).2).2 = ["b"] :=
  (googleLogin_twice_single_active ⟨Except.ok (some ⟨1, "e"⟩), true, true, true⟩
    ⟨Except.ok (some ⟨1, "e"⟩), true, true, true⟩ ⟨"e", false⟩ ⟨"e", false⟩ "a" "b" ⟨1, "e"⟩
    ⟨[], 0, [], [], [], []⟩ (by decide) (by decide) (by decide) rfl rfl rfl rfl rfl rfl rfl
    rfl).2.2

theorem googleLogin_promotes_verified (env : LoginEnv) (gu : GoogleUserDto) (rt : String)
    (s : DbState) (u : User)
    (hu : env.userLookup = Except.ok (some u)) (hsso : env.ssoWriteOk = true)
    (hvl : env.verifLookupOk = true) (hmv : env.markVerifiedOk = true)
    (hgv : gu.emailVerified = true) (hnv : s.verified.contains u.id = false) :
    ((googleLogin env gu rt s).2).verified = u.id :: s.verified ∧
    ((googleLogin env gu rt s).2).emailsSent = s.emailsSent := by
  have hcond : (!isEmailVerified u.id (createGoogleSsoRow u.id (tokenStep u.id rt s).2) &&
      gu.emailVerified) = true := by
    unfold isEmailVerified
    rw [ssoRow_verified, tokenStep_verified, hnv, hgv]
    rfl
  unfold googleLogin loginTry
  rw [hu]
  simp only
  rw [if_pos hsso, if_pos hvl, if_pos hcond, if_pos hmv]
  constructor
  · simp only
    rw [logEvent_verified, mark_verified, ssoRow_verified, tokenStep_verified]
  · simp only
    rw [logEvent_emailsSent, mark_emailsSent, ssoRow_emailsSent, tokenStep_emailsSent]

theorem googleLogin_verified_monotone (env : LoginEnv) (gu : GoogleUserDto) (rt : String)
    (s : DbState) :
    ∀ x, x ∈ s.verified → x ∈ ((googleLogin env gu rt s).2).verified := by
  intro x hx
  rcases hlt : loginTry env gu rt s with ⟨r, s'⟩
  cases r with
  | ok tok =>
    have hgl : googleLogin env gu rt s = (Except.ok tok, s') := by
      unfold googleLogin
      rw [hlt]
    rcases loginTry_ok_spec env gu rt s tok s' hlt with ⟨u, _, _, s₃, hs', _, _, _, hv⟩
    rw [hgl]
    simp only
    rw [hs', logEvent_verified]
    rcases hv with hv | hv <;> rw [hv]
    · exact hx
    · exact List.mem_cons_of_mem _ hx
  | error e0 =>
    have hgl : googleLogin env gu rt s =
        (Except.error .googleAuthFailed,
         logEvent (resolvedUserId env) .login .failure (some .unexpectedGoogleSso) none s') := by
      unfold googleLogin
      rw [hlt]
    have hstate := loginTry_error_state env gu rt s e0 s' hlt
    rw [hgl]
    simp only
    rw [logEvent_verified]
    rcases hstate.2.2 with hv | ⟨uid, hv⟩ <;> rw [hv]
    · exact hx
    · exact List.mem_cons_of_mem _ hx

theorem register_unverified_spec (renv : RegisterEnv) (rt0 : String) (s : DbState)
    (hnv : renv.payloadEmailVerified = false) :
    ((createGoogleSsoUser renv rt0 s).2).verified = s.verified ∧
    ((createGoogleSsoUser renv rt0 s).2).emailsSent = renv.newUserId :: s.emailsSent := by
  unfold createGoogleSsoUser
  simp only [hnv, Bool.false_eq_true, if_neg, ite_false]
  constructor
  · rw [create_verified, logEvent_verified, send_verified]
    rfl
  · rw [create_emailsSent, logEvent_emailsSent, send_emailsSent]
    rfl

/-- C6: a first Google sign-in whose provider payload has
email_verified=false leaves the user unverified and dispatches exactly one
verification email; a later login with email_verified=true while the user
is still locally unverified marks the user verified and sends no further
email; and googleLogin never removes a user from the locally-verified set
(local-verified never regresses). -/
theorem verification_one_directional (renv : RegisterEnv) (rt0 : String) (s : DbState)
    (env2 : LoginEnv) (gu2 : GoogleUserDto) (rt2 : String) (u : User)
    (hnv : renv.payloadEmailVerified = false)
    (hfresh : s.verified.contains u.id = false)
    (hu2 : env2.userLookup = Except.ok (some u))
    (hsso2 : env2.ssoWriteOk = true) (hvl2 : env2.verifLookupOk = true)
    (hmv2 : env2.markVerifiedOk = true)
    (hgv2 : gu2.emailVerified = true) :
    ((createGoogleSsoUser renv rt0 s).2).verified = s.verified ∧
    ((createGoogleSsoUser renv rt0 s).2).emailsSent = renv.newUserId :: s.emailsSent ∧
    ((googleLogin env2 gu2 rt2 (createGoogleSsoUser renv rt0 s).2).2).verified =
      u.id :: s.verified ∧
    ((googleLogin env2 gu2 rt2 (createGoogleSsoUser renv rt0 s).2).2).emailsSent =
      renv.newUserId :: s.emailsSent ∧
    (∀ env gu rtk st x, x ∈ DbState.verified st →
      x ∈ DbState.verified ((googleLogin env gu rtk st).2)) := by
  obtain ⟨hrv, hre⟩ := register_unverified_spec renv rt0 s hnv
  have hfresh' : ((createGoogleSsoUser renv rt0 s).2).verified.contains u.id = false := by
    rw [hrv]
    exact hfresh
  obtain ⟨hlv, hle⟩ := googleLogin_promotes_verified env2 gu2 rt2
    ((createGoogleSsoUser renv rt0 s).2) u hu2 hsso2 hvl2 hmv2 hgv2 hfresh'
  refine ⟨hrv, hre, ?_, ?_, ?_⟩
  · rw [hlv, hrv]
  · rw [hle, hre]
  · intro env gu rtk st x hx
    exact googleLogin_verified_monotone env gu rtk st x hx

/-- Witness for C6: user 1, first sign-in unverified then a verified
login, on an empty initial state. -/
theorem verification_one_directional_witness :
    ((googleLogin ⟨Except.ok (some ⟨1, "e"⟩), true, true, true⟩ ⟨"e", true⟩ "b"
        (createGoogleSsoUser ⟨⟨some "at", none⟩, false, 1⟩ "a"
          ⟨[], 0, [], [], [], []⟩).2).2).verified = [1] :=
  (verification_one_directional ⟨⟨some "at", none⟩, false, 1⟩ "a" ⟨[], 0, [], [], [], []⟩
    ⟨Except.ok (some ⟨1, "e"⟩), true, true, true⟩ ⟨"e", true⟩ "b" ⟨1, "e"⟩ rfl rfl rfl rfl
    rfl rfl rfl).2.2.1

end SsoAuth

namespace Middleware

theorem cookiesHasFetchedActor_iff (req : MwRequest) :
    cookiesHasFetchedActor req = true ↔
      ∃ c, req.userSessionCookies = [c] ∧
        getCookie req ("user-" ++ c.name) = some c.value := by
  rcases req with ⟨ck, usc, psc⟩
  unfold cookiesHasFetchedActor
  rcases usc with _ | ⟨c, cs⟩
  · rcases psc with _ | p <;> simp
  · rcases cs with _ | ⟨c2, cs2⟩
    · simp [beq_iff_eq]
    · simp

theorem middleware_fetched_of_miss (fetchResult : Except Unit (Option ActorResponse))
    (pathLang : String) (req : MwRequest) (h : cookiesHasFetchedActor req = false) :
    (authenticateUserMiddleware fetchResult pathLang req).fetched = true := by
  unfold authenticateUserMiddleware
  rw [h]
  simp only [Bool.false_eq_true, if_false]
  rcases fetchResult with e | lu
  · rfl
  · rcases lu with _ | ar
    · rfl
    · rcases ar with ⟨me, tok, sid⟩
      rcases me with _ | m
      · rfl
      · rfl

/-- C8: the session-resolution middleware skips the fetch and performs no
cookie mutations exactly when one user-session cookie is present and the
companion marker cookie user-(sessionId) carries the same value; with zero
or several user-session cookies, or a missing or mismatched marker, it
proceeds to the fetch. -/
theorem middleware_cache_hit_iff (fetchResult : Except Unit (Option ActorResponse))
    (pathLang : String) (req : MwRequest) :
    ((authenticateUserMiddleware fetchResult pathLang req).fetched = false ↔
      ∃ c, req.userSessionCookies = [c] ∧
        getCookie req ("user-" ++ c.name) = some c.value) ∧
    ((authenticateUserMiddleware fetchResult pathLang req).fetched = false →
      (authenticateUserMiddleware fetchResult pathLang req).response = none) := by
  by_cases h : cookiesHasFetchedActor req = true
  · have hred : authenticateUserMiddleware fetchResult pathLang req = ⟨false, none⟩ := by
      unfold authenticateUserMiddleware
      rw [h]
      rfl
    rw [hred]
    refine ⟨?_, fun _ => rfl⟩
    constructor
    · intro _
      exact (cookiesHasFetchedActor_iff req).mp h
    · intro _
      rfl
  · have h' : cookiesHasFetchedActor req = false := by
      rcases hb : cookiesHasFetchedActor req with _ | _
      · rfl
      · exact absurd hb h
    have hft := middleware_fetched_of_miss fetchResult pathLang req h'
    constructor
    · constructor
      · intro hf
        rw [hft] at hf
        cases hf
      · intro hex
        exact absurd ((cookiesHasFetchedActor_iff req).mpr hex) h
    · intro hf
      rw [hft] at hf
      cases hf

/-- Witness for C8: a request whose single user-session cookie has a
matching marker cookie short-circuits the middleware. -/
theorem middleware_cache_hit_iff_witness :
    (authenticateUserMiddleware (Except.error ()) "en"
      ⟨[⟨"user-s1", "v"⟩], [⟨"s1", "v"⟩], none⟩).fetched = false :=
  (middleware_cache_hit_iff (Except.error ()) "en"
    ⟨[⟨"user-s1", "v"⟩], [⟨"s1", "v"⟩], none⟩).1.mpr ⟨⟨"s1", "v"⟩, rfl, rfl⟩

/-- Counterexample for C5: on a fetch error the middleware returns with no
response at all — the logged-user/authToken cookies and headers are NOT
cleared, contradicting the claim that a fetch failure clears them. -/
theorem middleware_error_no_clear_cex :
    (authenticateUserMiddleware (Except.error ()) "en"
      (⟨[], [], none⟩ : MwRequest)).response = none ∧
    ¬ (authenticateUserMiddleware (Except.error ()) "en"
      (⟨[], [], none⟩ : MwRequest)).response = some clearSessionCookies := by
  refine ⟨rfl, ?_⟩
  intro h
  rw [show (authenticateUserMiddleware (Except.error ()) "en"
    (⟨[], [], none⟩ : MwRequest)).response = none from rfl] at h
  cases h

theorem filter_name_noop (l : List Cookie) (a : String) (h : ∀ c ∈ l, ¬ c.name = a) :
    l.filter (fun c => c.name ≠ a) = l := by
  induction l with
  | nil => rfl
  | cons c t ih =>
    rw [List.filter_cons_of_pos]
    · rw [ih (fun d hd => h d (List.mem_cons_of_mem _ hd))]
    · simpa using h c (List.mem_cons_self c t)

theorem filter_self_idem (p : Cookie → Bool) (l : List Cookie) :
    (l.filter p).filter p = l.filter p := by
  induction l with
  | nil => rfl
  | cons c t ih =>
    by_cases h : p c = true
    · rw [List.filter_cons_of_pos h, List.filter_cons_of_pos h, ih]
    · rw [List.filter_cons_of_neg h, ih]

theorem filter_comm_cookie (p q : Cookie → Bool) (l : List Cookie) :
    (l.filter p).filter q = (l.filter q).filter p := by
  induction l with
  | nil => rfl
  | cons c t ih =>
    by_cases hp : p c = true <;> by_cases hq : q c = true <;>
      simp [List.filter_cons, hp, hq, ih]

theorem filter_name_idem (l : List Cookie) (a b : String) :
    ((((l.filter (fun c => c.name ≠ a)).filter (fun c => c.name ≠ b)).filter
        (fun c => c.name ≠ a)).filter (fun c => c.name ≠ b)) =
      (l.filter (fun c => c.name ≠ a)).filter (fun c => c.name ≠ b) := by
  rw [filter_comm_cookie (fun c => c.name ≠ b) (fun c => c.name ≠ a),
    filter_self_idem (fun c => c.name ≠ a),
    filter_self_idem (fun c => c.name ≠ b)]

/-- C5 (amended): when the fetch of logged-in-user info succeeds but
returns no actor, the middleware clears the logged-user and authToken
cookies and headers; when the fetch fails with an error the middleware
returns without touching cookies or headers (contrary to the original
claim); clearing is idempotent and clearing absent cookies is a no-op. -/
theorem middleware_clear_on_no_actor (fetchResult : Except Unit (Option ActorResponse))
    (pathLang : String) (req : MwRequest)
    (hmiss : cookiesHasFetchedActor req = false) :
    (fetchResult = Except.ok none →
      (authenticateUserMiddleware fetchResult pathLang req).response =
        some clearSessionCookies) ∧
    (∀ ar, fetchResult = Except.ok (some ar) → ar.me = none →
      (authenticateUserMiddleware fetchResult pathLang req).response =
        some clearSessionCookies) ∧
    (fetchResult = Except.error () →
      (authenticateUserMiddleware fetchResult pathLang req).response = none) ∧
    (∀ jar, (∀ c ∈ jar, ¬ c.name = "logged-user" ∧ ¬ c.name = "authToken") →
      applyOps jar clearSessionCookies.cookieOps = jar) ∧
    (∀ jar, applyOps (applyOps jar clearSessionCookies.cookieOps)
        clearSessionCookies.cookieOps =
      applyOps jar clearSessionCookies.cookieOps) := by
  refine ⟨?_, ?_, ?_, ?_, ?_⟩
  · intro hf
    unfold authenticateUserMiddleware
    rw [hmiss, hf]
    rfl
  · intro ar hf hme
    unfold authenticateUserMiddleware
    rw [hmiss, hf]
    simp only [Bool.false_eq_true, if_false]
    rw [hme]
  · intro hf
    unfold authenticateUserMiddleware
    rw [hmiss, hf]
    rfl
  · intro jar h
    show ((jar.filter (fun c => c.name ≠ "logged-user")).filter
      (fun c => c.name ≠ "authToken")) = jar
    rw [filter_name_noop jar "logged-user" (fun c hc => (h c hc).1)]
    exact filter_name_noop jar "authToken" (fun c hc => (h c hc).2)
  · intro jar
    exact filter_name_idem jar "logged-user" "authToken"

/-- Witness for C5: a no-actor fetch on a cookieless request yields the
clearing response. -/
theorem middleware_clear_on_no_actor_witness :
    (authenticateUserMiddleware (Except.ok none) "en"
      (⟨[], [], none⟩ : MwRequest)).response = some clearSessionCookies :=
  (middleware_clear_on_no_actor (Except.ok none) "en" ⟨[], [], none⟩ rfl).1 rfl

end Middleware

namespace AuthContext

/-- C10: every context getAuthContext returns has exactly one of user and
patient non-null — a request with a user yields a user context with null
patient (the user takes precedence even when a patient is also attached),
a request with only a patient yields a patient context with null user, and
a request with neither makes getAuthContext throw. -/
theorem getAuthContext_exclusive (req : ExtendedRequest) :
    (∀ u, req.user = some u →
      ∃ ctx, getAuthContext req = Except.ok ctx ∧
        ctx.user.isSome = true ∧ ctx.patient = none) ∧
    (req.user = none → ∀ p, req.patient = some p →
      ∃ ctx, getAuthContext req = Except.ok ctx ∧
        ctx.user = none ∧ ctx.patient = some p) ∧
    (req.user = none → req.patient = none →
      getAuthContext req = Except.error ()) ∧
    (∀ ctx, getAuthContext req = Except.ok ctx →
      (ctx.user.isSome = true ∧ ctx.patient = none) ∨
      (ctx.user = none ∧ ctx.patient.isSome = true)) := by
  rcases req with ⟨user, patient, sid, wid, hdrs⟩
  rcases user with _ | u
  · rcases patient with _ | p <;>
      simp [getAuthContext, getExtendedRequestAuthContext]
  · rcases patient with _ | p <;>
      simp [getAuthContext, getExtendedRequestAuthContext]

/-- Witness for C10: a request carrying both a user and a patient resolves
to a user context with null patient. -/
theorem getAuthContext_exclusive_witness :
    ∃ ctx, getAuthContext ⟨some ⟨"e", [], "en"⟩, some ⟨7, "c", "t"⟩, some "sid", none,
        ⟨none, none, none⟩⟩ = Except.ok ctx ∧
      ctx.user.isSome = true ∧ ctx.patient = none :=
  (getAuthContext_exclusive ⟨some ⟨"e", [], "en"⟩, some ⟨7, "c", "t"⟩, some "sid", none,
    ⟨none, none, none⟩⟩).1 ⟨"e", [], "en"⟩ rfl

end AuthContext
